import Mathlib

/-!
Verification of the quantitative computation engine of `src/tools/builtin/science.rs`
(ironclaw). The Rust functions are shallowly embedded over exact rationals:
every `f64` becomes `ℚ`, `serde_json::Value` becomes the inductive `J`,
and every fallible function returns `Except ToolError _`, mirroring
`Result<serde_json::Value, ToolError>`. All definitions are transcribed
arm-for-arm from the source file.
-/

/-- Shallow model of `serde_json::Value`: numbers are exact rationals. -/
inductive J where
  | num (q : ℚ)
  | str (s : String)
  | bool (b : Bool)
  | null
  | arr (elems : List J)
  | obj (fields : List (String × J))

/-- `Value::as_f64`: numeric values only. -/
def J.asNum : J → Option ℚ
  | .num q => some q
  | _ => none

/-- `Value::as_array`. -/
def J.asArr : J → Option (List J)
  | .arr l => some l
  | _ => none

/-- `Value::as_str`. -/
def J.asStr : J → Option String
  | .str s => some s
  | _ => none

/-- Field names of a JSON object (empty for non-objects). -/
def J.keys : J → List String
  | .obj fields => fields.map Prod.fst
  | _ => []

/-- A request: the flat key-value map handed to the compute functions. -/
def Params := List (String × J)

/-- `params.get(key)` on a JSON object. -/
def getField (params : Params) (key : String) : Option J :=
  (params.find? (fun kv => kv.fst == key)).map Prod.snd

/-- `params.get(key).and_then(|v| v.as_f64())`. -/
def getNum (params : Params) (key : String) : Option ℚ :=
  (getField params key).bind J.asNum

/-- `ToolError`: the science module only ever constructs `InvalidParameters`. -/
inductive ToolError where
  | invalidParameters (msg : String)
  deriving DecidableEq

/-- Modelled from the spec: `require_str` lives in `crate::tools::tool`, outside
the analyzed sources. Per the facade contract it fetches a mandatory string
field and fails with a missing-field error when it is absent or non-string. -/
def require_str (params : Params) (key : String) : Except ToolError String :=
  match getField params key with
  | some (.str s) => .ok s
  | _ => .error (.invalidParameters ("\x27" ++ key ++ "\x27 is required"))

/-- `str::to_lowercase`, character-wise as in the ASCII unit/constant tokens. -/
def lowerString (s : String) : String := ⟨s.data.map Char.toLower⟩

/-- Message of the catch-all arm of `to_base_unit`. -/
def unknownUnitMsg (unit : String) : String :=
  "unknown unit: \x27" ++ unit ++ "\x27. Supported: length (m, km, cm, mm, um, nm, pm, angstrom, in, ft, mi), mass (kg, g, mg, ug, ng, lb, oz, dalton), volume (l, ml, ul, nl, gal), temperature (k, c, f), time (s, ms, us, ns, min, h, day), pressure (pa, kpa, bar, atm, mmhg, psi), concentration (mol/l, mmol/l, umol/l, nmol/l), energy (j, kj, cal, kcal, ev)"

/-- Message of the catch-all arm of `from_base_unit`: it interpolates the
category base unit of the source and the raw target spelling. -/
def crossMsg (base target : String) : String :=
  "cannot convert from \x27" ++ base ++ "\x27 base to \x27" ++ target ++ "\x27. Units must be in the same category."

/-- The `// Length` arm group of the match in `to_base_unit`. -/
def to_base_length (value : ℚ) (unit : String) : Option (ℚ × String) :=
  match unit with
  | "m" | "meter" | "meters" => some (value, "m")
  | "km" | "kilometer" | "kilometers" => some (value * 1000.0, "m")
  | "cm" | "centimeter" | "centimeters" => some (value * 0.01, "m")
  | "mm" | "millimeter" | "millimeters" => some (value * 0.001, "m")
  | "um" | "micrometer" | "micrometers" | "micron" | "microns" => some (value * 1e-6, "m")
  | "nm" | "nanometer" | "nanometers" => some (value * 1e-9, "m")
  | "pm" | "picometer" | "picometers" => some (value * 1e-12, "m")
  | "angstrom" | "angstroms" | "å" => some (value * 1e-10, "m")
  | "in" | "inch" | "inches" => some (value * 0.0254, "m")
  | "ft" | "foot" | "feet" => some (value * 0.3048, "m")
  | "mi" | "mile" | "miles" => some (value * 1609.344, "m")
  | _ => none

/-- The `// Mass` arm group of the match in `to_base_unit`. -/
def to_base_mass (value : ℚ) (unit : String) : Option (ℚ × String) :=
  match unit with
  | "kg" | "kilogram" | "kilograms" => some (value, "kg")
  | "g" | "gram" | "grams" => some (value * 0.001, "kg")
  | "mg" | "milligram" | "milligrams" => some (value * 1e-6, "kg")
  | "ug" | "microgram" | "micrograms" => some (value * 1e-9, "kg")
  | "ng" | "nanogram" | "nanograms" => some (value * 1e-12, "kg")
  | "lb" | "pound" | "pounds" => some (value * 0.453592, "kg")
  | "oz" | "ounce" | "ounces" => some (value * 0.0283495, "kg")
  | "dalton" | "daltons" | "da" | "amu" => some (value * 1.66053906660e-27, "kg")
  | _ => none

/-- The `// Volume` arm group of the match in `to_base_unit`. -/
def to_base_volume (value : ℚ) (unit : String) : Option (ℚ × String) :=
  match unit with
  | "l" | "liter" | "liters" | "litre" | "litres" => some (value, "l")
  | "ml" | "milliliter" | "milliliters" => some (value * 0.001, "l")
  | "ul" | "microliter" | "microliters" => some (value * 1e-6, "l")
  | "nl" | "nanoliter" | "nanoliters" => some (value * 1e-9, "l")
  | "gal" | "gallon" | "gallons" => some (value * 3.78541, "l")
  | _ => none

/-- The `// Temperature` arm group of the match in `to_base_unit`. -/
def to_base_temperature (value : ℚ) (unit : String) : Option (ℚ × String) :=
  match unit with
  | "k" | "kelvin" => some (value, "k")
  | "c" | "celsius" => some (value + 273.15, "k")
  | "f" | "fahrenheit" => some ((value - 32.0) * 5.0 / 9.0 + 273.15, "k")
  | _ => none

/-- The `// Time` arm group of the match in `to_base_unit`. -/
def to_base_time (value : ℚ) (unit : String) : Option (ℚ × String) :=
  match unit with
  | "s" | "sec" | "second" | "seconds" => some (value, "s")
  | "ms" | "millisecond" | "milliseconds" => some (value * 0.001, "s")
  | "us" | "microsecond" | "microseconds" => some (value * 1e-6, "s")
  | "ns" | "nanosecond" | "nanoseconds" => some (value * 1e-9, "s")
  | "min" | "minute" | "minutes" => some (value * 60.0, "s")
  | "h" | "hr" | "hour" | "hours" => some (value * 3600.0, "s")
  | "day" | "days" => some (value * 86400.0, "s")
  | _ => none

/-- The `// Pressure` arm group of the match in `to_base_unit`. -/
def to_base_pressure (value : ℚ) (unit : String) : Option (ℚ × String) :=
  match unit with
  | "pa" | "pascal" | "pascals" => some (value, "pa")
  | "kpa" | "kilopascal" | "kilopascals" => some (value * 1000.0, "pa")
  | "bar" => some (value * 100000.0, "pa")
  | "atm" | "atmosphere" | "atmospheres" => some (value * 101325.0, "pa")
  | "mmhg" | "torr" => some (value * 133.322, "pa")
  | "psi" => some (value * 6894.76, "pa")
  | _ => none

/-- The `// Concentration` arm group of the match in `to_base_unit`. -/
def to_base_concentration (value : ℚ) (unit : String) : Option (ℚ × String) :=
  match unit with
  | "mol/l" | "molar" | "mol/liter" => some (value, "mol/l")
  | "mmol/l" | "millimolar" => some (value * 0.001, "mol/l")
  | "umol/l" | "micromolar" => some (value * 1e-6, "mol/l")
  | "nmol/l" | "nanomolar" => some (value * 1e-9, "mol/l")
  | _ => none

/-- The `// Energy` arm group of the match in `to_base_unit`. -/
def to_base_energy (value : ℚ) (unit : String) : Option (ℚ × String) :=
  match unit with
  | "j" | "joule" | "joules" => some (value, "j")
  | "kj" | "kilojoule" | "kilojoules" => some (value * 1000.0, "j")
  | "cal" | "calorie" | "calories" => some (value * 4.184, "j")
  | "kcal" | "kilocalorie" | "kilocalories" => some (value * 4184.0, "j")
  | "ev" | "electronvolt" | "electronvolts" => some (value * 1.602176634e-19, "j")
  | _ => none

/-- `to_base_unit`: value in `unit` to (value in category base unit, base unit).
The single match of the source is embedded as its category arm groups tried in
source order; the spelling sets of the groups are pairwise disjoint, so the
first-match semantics of the Rust match is preserved arm for arm. -/
def to_base_unit (value : ℚ) (unit : String) : Except ToolError (ℚ × String) :=
  match to_base_length value unit with
  | some r => .ok r
  | none =>
    match to_base_mass value unit with
    | some r => .ok r
    | none =>
      match to_base_volume value unit with
      | some r => .ok r
      | none =>
        match to_base_temperature value unit with
        | some r => .ok r
        | none =>
          match to_base_time value unit with
          | some r => .ok r
          | none =>
            match to_base_pressure value unit with
            | some r => .ok r
            | none =>
              match to_base_concentration value unit with
              | some r => .ok r
              | none =>
                match to_base_energy value unit with
                | some r => .ok r
                | none =>
                  .error (.invalidParameters (unknownUnitMsg unit))

/-- The `("m", _)` arm group of the match in `from_base_unit`. -/
def from_base_length (value : ℚ) (target : String) : Option ℚ :=
  match target with
  | "m" | "meter" | "meters" => some (value)
  | "km" | "kilometer" | "kilometers" => some (value / 1000.0)
  | "cm" | "centimeter" | "centimeters" => some (value / 0.01)
  | "mm" | "millimeter" | "millimeters" => some (value / 0.001)
  | "um" | "micrometer" | "micrometers" | "micron" | "microns" => some (value / 1e-6)
  | "nm" | "nanometer" | "nanometers" => some (value / 1e-9)
  | "pm" | "picometer" | "picometers" => some (value / 1e-12)
  | "angstrom" | "angstroms" | "å" => some (value / 1e-10)
  | "in" | "inch" | "inches" => some (value / 0.0254)
  | "ft" | "foot" | "feet" => some (value / 0.3048)
  | "mi" | "mile" | "miles" => some (value / 1609.344)
  | _ => none

/-- The `("kg", _)` arm group of the match in `from_base_unit`. -/
def from_base_mass (value : ℚ) (target : String) : Option ℚ :=
  match target with
  | "kg" | "kilogram" | "kilograms" => some (value)
  | "g" | "gram" | "grams" => some (value / 0.001)
  | "mg" | "milligram" | "milligrams" => some (value / 1e-6)
  | "ug" | "microgram" | "micrograms" => some (value / 1e-9)
  | "ng" | "nanogram" | "nanograms" => some (value / 1e-12)
  | "lb" | "pound" | "pounds" => some (value / 0.453592)
  | "oz" | "ounce" | "ounces" => some (value / 0.0283495)
  | "dalton" | "daltons" | "da" | "amu" => some (value / 1.66053906660e-27)
  | _ => none

/-- The `("l", _)` arm group of the match in `from_base_unit`. -/
def from_base_volume (value : ℚ) (target : String) : Option ℚ :=
  match target with
  | "l" | "liter" | "liters" | "litre" | "litres" => some (value)
  | "ml" | "milliliter" | "milliliters" => some (value / 0.001)
  | "ul" | "microliter" | "microliters" => some (value / 1e-6)
  | "nl" | "nanoliter" | "nanoliters" => some (value / 1e-9)
  | "gal" | "gallon" | "gallons" => some (value / 3.78541)
  | _ => none

/-- The `("k", _)` arm group of the match in `from_base_unit`. -/
def from_base_temperature (value : ℚ) (target : String) : Option ℚ :=
  match target with
  | "k" | "kelvin" => some (value)
  | "c" | "celsius" => some (value - 273.15)
  | "f" | "fahrenheit" => some ((value - 273.15) * 9.0 / 5.0 + 32.0)
  | _ => none

/-- The `("s", _)` arm group of the match in `from_base_unit`. -/
def from_base_time (value : ℚ) (target : String) : Option ℚ :=
  match target with
  | "s" | "sec" | "second" | "seconds" => some (value)
  | "ms" | "millisecond" | "milliseconds" => some (value / 0.001)
  | "us" | "microsecond" | "microseconds" => some (value / 1e-6)
  | "ns" | "nanosecond" | "nanoseconds" => some (value / 1e-9)
  | "min" | "minute" | "minutes" => some (value / 60.0)
  | "h" | "hr" | "hour" | "hours" => some (value / 3600.0)
  | "day" | "days" => some (value / 86400.0)
  | _ => none

/-- The `("pa", _)` arm group of the match in `from_base_unit`. -/
def from_base_pressure (value : ℚ) (target : String) : Option ℚ :=
  match target with
  | "pa" | "pascal" | "pascals" => some (value)
  | "kpa" | "kilopascal" | "kilopascals" => some (value / 1000.0)
  | "bar" => some (value / 100000.0)
  | "atm" | "atmosphere" | "atmospheres" => some (value / 101325.0)
  | "mmhg" | "torr" => some (value / 133.322)
  | "psi" => some (value / 6894.76)
  | _ => none

/-- The `("mol/l", _)` arm group of the match in `from_base_unit`. -/
def from_base_concentration (value : ℚ) (target : String) : Option ℚ :=
  match target with
  | "mol/l" | "molar" | "mol/liter" => some (value)
  | "mmol/l" | "millimolar" => some (value / 0.001)
  | "umol/l" | "micromolar" => some (value / 1e-6)
  | "nmol/l" | "nanomolar" => some (value / 1e-9)
  | _ => none

/-- The `("j", _)` arm group of the match in `from_base_unit`. -/
def from_base_energy (value : ℚ) (target : String) : Option ℚ :=
  match target with
  | "j" | "joule" | "joules" => some (value)
  | "kj" | "kilojoule" | "kilojoules" => some (value / 1000.0)
  | "cal" | "calorie" | "calories" => some (value / 4.184)
  | "kcal" | "kilocalorie" | "kilocalories" => some (value / 4184.0)
  | "ev" | "electronvolt" | "electronvolts" => some (value / 1.602176634e-19)
  | _ => none

/-- `from_base_unit`: value in category base `base` to the target spelling.
The source matches on the pair `(base, target)`; the embedding dispatches on
the base unit first and then consults the same arm group, falling through to
the single catch-all error, exactly as the pair match does. -/
def from_base_unit (value : ℚ) (base target : String) : Except ToolError ℚ :=
  match base with
  | "m" =>
    match from_base_length value target with
    | some r => .ok r
    | none => .error (.invalidParameters (crossMsg base target))
  | "kg" =>
    match from_base_mass value target with
    | some r => .ok r
    | none => .error (.invalidParameters (crossMsg base target))
  | "l" =>
    match from_base_volume value target with
    | some r => .ok r
    | none => .error (.invalidParameters (crossMsg base target))
  | "k" =>
    match from_base_temperature value target with
    | some r => .ok r
    | none => .error (.invalidParameters (crossMsg base target))
  | "s" =>
    match from_base_time value target with
    | some r => .ok r
    | none => .error (.invalidParameters (crossMsg base target))
  | "pa" =>
    match from_base_pressure value target with
    | some r => .ok r
    | none => .error (.invalidParameters (crossMsg base target))
  | "mol/l" =>
    match from_base_concentration value target with
    | some r => .ok r
    | none => .error (.invalidParameters (crossMsg base target))
  | "j" =>
    match from_base_energy value target with
    | some r => .ok r
    | none => .error (.invalidParameters (crossMsg base target))
  | _ => .error (.invalidParameters (crossMsg base target))

/-- `convert_units`: lowercase both spellings, go through the category base. -/
def convert_units (value : ℚ) (fromUnit toUnit : String) : Except ToolError ℚ :=
  match to_base_unit value (lowerString fromUnit) with
  | .error e => .error e
  | .ok (baseValue, baseUnit) => from_base_unit baseValue baseUnit (lowerString toUnit)

/-- The category base unit a recognized spelling resolves to, read off from
`to_base_unit` itself. -/
def baseOf (unit : String) : Option String :=
  match to_base_unit 0 unit with
  | .ok (_, b) => some b
  | .error _ => none

/-- Message of the catch-all arm of `lookup_constant`. -/
def unknownConstantMsg (name : String) : String :=
  "unknown constant: \x27" ++ name ++ "\x27. Available: avogadro, boltzmann, planck, hbar, gas_constant, speed_of_light, faraday, electron_mass, proton_mass, neutron_mass, elementary_charge, gravitational, standard_gravity, vacuum_permittivity, vacuum_permeability, stefan_boltzmann, water_molar_mass"

/-- The registry match inside `lookup_constant`: lowercased spelling to
(value, unit, description), transcribed arm-for-arm. -/
def constantData (key : String) : Option (ℚ × String × String) :=
  match key with
  | "avogadro" | "na" => some (6.02214076e23, "mol⁻¹", "Avogadro\x27s number")
  | "boltzmann" | "kb" => some (1.380649e-23, "J/K", "Boltzmann constant")
  | "planck" | "h" => some (6.62607015e-34, "J·s", "Planck constant")
  | "hbar" | "reduced_planck" => some (1.054571817e-34, "J·s", "Reduced Planck constant (ℏ)")
  | "gas_constant" | "r" => some (8.314462618, "J/(mol·K)", "Universal gas constant")
  | "speed_of_light" | "c" => some (2.99792458e8, "m/s", "Speed of light in vacuum")
  | "faraday" | "f" => some (96485.33212, "C/mol", "Faraday constant")
  | "electron_mass" | "me" => some (9.1093837015e-31, "kg", "Electron mass")
  | "proton_mass" | "mp" => some (1.67262192369e-27, "kg", "Proton mass")
  | "neutron_mass" | "mn" => some (1.67492749804e-27, "kg", "Neutron mass")
  | "elementary_charge" | "e" => some (1.602176634e-19, "C", "Elementary charge")
  | "gravitational" | "g" => some (6.67430e-11, "m³/(kg·s²)", "Gravitational constant")
  | "standard_gravity" | "g0" => some (9.80665, "m/s²", "Standard acceleration of gravity")
  | "vacuum_permittivity" | "epsilon0" => some (8.8541878128e-12, "F/m", "Vacuum permittivity (ε₀)")
  | "vacuum_permeability" | "mu0" => some (1.25663706212e-6, "H/m", "Vacuum permeability (μ₀)")
  | "stefan_boltzmann" | "sigma" => some (5.670374419e-8, "W/(m²·K⁴)", "Stefan–Boltzmann constant")
  | "water_molar_mass" => some (18.01528, "g/mol", "Molar mass of water")
  | _ => none

/-- The success record of `lookup_constant`: note `symbol` echoes the spelling
as supplied by the caller, before lowercasing. -/
def constRecord (name : String) (value : ℚ) (unit description : String) : List (String × J) :=
  [("name", .str description), ("symbol", .str name), ("value", .num value), ("unit", .str unit)]

/-- `lookup_constant`. -/
def lookup_constant (params : Params) : Except ToolError J :=
  match require_str params "constant" with
  | .error e => .error e
  | .ok name =>
    match constantData (lowerString name) with
    | some (value, unit, description) => .ok (.obj (constRecord name value unit description))
    | none => .error (.invalidParameters (unknownConstantMsg name))

/-- Drop one field from a record, to compare records up to that field. -/
def removeField (key : String) (fields : List (String × J)) : List (String × J) :=
  fields.filter (fun kv => !(kv.fst == key))

/-- Insert into a sorted list, ascending. -/
def insertSorted (x : ℚ) : List ℚ → List ℚ
  | [] => [x]
  | y :: ys => if x ≤ y then x :: y :: ys else y :: insertSorted x ys

/-- `sorted.sort_by(partial_cmp)`: an ascending sort of the sample. -/
def sortAsc (l : List ℚ) : List ℚ := l.foldr insertSorted []

/-- The percentile closure of `compute_statistics`, over the sorted sample:
`rank = p/100 * (n-1)`, with linear interpolation between the two
neighbouring order statistics. -/
def percentile (sorted : List ℚ) (p : ℚ) : ℚ :=
  let rank : ℚ := p / 100 * ((sorted.length : ℚ) - 1)
  let lower : ℕ := (⌊rank⌋).toNat
  let upper : ℕ := (⌈rank⌉).toNat
  if lower = upper then sorted.getD lower 0
  else sorted.getD lower 0 * ((upper : ℚ) - rank) + sorted.getD upper 0 * (rank - (lower : ℚ))

/-- The "R type-7" percentile as worded by the spec (§4.3), kept separate from
the transcription `percentile` so the two can be compared: if the rank is
integral return that order statistic, otherwise interpolate between the
`floor(rank)`-th and `ceil(rank)`-th order statistics weighted by the
fractional part. -/
def percentileSpec (sorted : List ℚ) (p : ℚ) : ℚ :=
  let rank : ℚ := p / 100 * ((sorted.length : ℚ) - 1)
  if rank = (⌊rank⌋ : ℚ) then sorted.getD (⌊rank⌋).toNat 0
  else
    let lo := sorted.getD (⌊rank⌋).toNat 0
    let hi := sorted.getD (⌈rank⌉).toNat 0
    lo + (rank - (⌊rank⌋ : ℚ)) * (hi - lo)

/-- The success record of `compute_statistics` over the extracted values.
`f64::sqrt` has no exact rational counterpart, so the embedding takes the
square-root function as a parameter `sqrtFn`; no claim below depends on the
value of a square root. -/
def statsRecord (sqrtFn : ℚ → ℚ) (values : List ℚ) : List (String × J) :=
  let n : ℚ := (values.length : ℚ)
  let sum : ℚ := values.sum
  let mean : ℚ := sum / n
  let sorted : List ℚ := sortAsc values
  let median : ℚ :=
    if sorted.length % 2 = 0 then
      (sorted.getD (sorted.length / 2 - 1) 0 + sorted.getD (sorted.length / 2) 0) / 2
    else sorted.getD (sorted.length / 2) 0
  let variance : ℚ := (values.map (fun x => (x - mean) ^ 2)).sum / n
  let std_dev : ℚ := sqrtFn variance
  let sample_variance : ℚ :=
    if 1 < values.length then (values.map (fun x => (x - mean) ^ 2)).sum / (n - 1) else 0
  let sample_std_dev : ℚ := sqrtFn sample_variance
  let min : ℚ := sorted.headD 0
  let max : ℚ := sorted.getLastD 0
  let sem : ℚ := sample_std_dev / sqrtFn n
  [("n", .num n), ("mean", .num mean), ("median", .num median),
   ("std_dev", .num std_dev), ("sample_std_dev", .num sample_std_dev),
   ("sem", .num sem), ("variance", .num variance),
   ("sample_variance", .num sample_variance), ("min", .num min),
   ("max", .num max), ("range", .num (max - min)), ("sum", .num sum),
   ("percentiles", .obj
     [("p25", .num (percentile sorted 25)), ("p50", .num (percentile sorted 50)),
      ("p75", .num (percentile sorted 75)), ("p90", .num (percentile sorted 90)),
      ("p95", .num (percentile sorted 95)), ("p99", .num (percentile sorted 99))]),
   ("iqr", .num (percentile sorted 75 - percentile sorted 25))]

/-- `compute_statistics`: extract the finite numbers from `data` (silently
dropping everything else), reject an empty extraction, and build the record. -/
def compute_statistics (sqrtFn : ℚ → ℚ) (params : Params) : Except ToolError J :=
  match (getField params "data").bind J.asArr with
  | none => .error (.invalidParameters "\x27data\x27 array required for statistics")
  | some data =>
    let values := data.filterMap J.asNum
    if values.isEmpty then
      .error (.invalidParameters "\x27data\x27 must contain at least one number")
    else .ok (.obj (statsRecord sqrtFn values))

/-- The success record of `compute_dilution`. -/
def dilutionRecord (c1 v1 c2 v2 : ℚ) (solved : String) : List (String × J) :=
  [("c1", .num c1), ("v1", .num v1), ("c2", .num c2), ("v2", .num v2),
   ("formula", .str "C1×V1 = C2×V2"), ("solved_for", .str solved)]

/-- Message of the catch-all arm of `compute_dilution`. -/
def dilutionComboMsg : String :=
  "provide exactly 3 of: c1, v1, c2, value (as V2). The fourth will be solved."

/-- `compute_dilution`: C1*V1 = C2*V2, the fourth quantity (V2 arriving in the
request field `value`) solved from the other three. -/
def compute_dilution (params : Params) : Except ToolError J :=
  let c1 := getNum params "c1"
  let v1 := getNum params "v1"
  let c2 := getNum params "c2"
  let v2 := getNum params "value"
  match c1, v1, c2, v2 with
  | some c1, some v1, some c2, none =>
    if c2 ≤ 0 then .error (.invalidParameters "C2 must be > 0 to solve for V2")
    else .ok (.obj (dilutionRecord c1 v1 c2 ((c1 * v1) / c2) "V2"))
  | some c1, some v1, none, some v2 =>
    if v2 ≤ 0 then .error (.invalidParameters "V2 must be > 0 to solve for C2")
    else .ok (.obj (dilutionRecord c1 v1 ((c1 * v1) / v2) v2 "C2"))
  | some c1, none, some c2, some v2 =>
    if c1 ≤ 0 then .error (.invalidParameters "C1 must be > 0 to solve for V1")
    else .ok (.obj (dilutionRecord c1 ((c2 * v2) / c1) c2 v2 "V1"))
  | none, some v1, some c2, some v2 =>
    if v1 ≤ 0 then .error (.invalidParameters "V1 must be > 0 to solve for C1")
    else .ok (.obj (dilutionRecord ((c2 * v2) / v1) v1 c2 v2 "C1"))
  | _, _, _, _ => .error (.invalidParameters dilutionComboMsg)

/-- How many of the four dilution quantities are present in a request. -/
def presentCount (a b c d : Option ℚ) : ℕ :=
  (if a.isSome then 1 else 0) + (if b.isSome then 1 else 0) +
  (if c.isSome then 1 else 0) + (if d.isSome then 1 else 0)

/-- The success record of `compute_molarity`. -/
def molarityRecord (mass mw vol : ℚ) : List (String × J) :=
  [("mass_grams", .num mass), ("molecular_weight", .num mw),
   ("volume_liters", .num vol), ("moles", .num (mass / mw)),
   ("molarity_mol_per_l", .num (mass / mw / vol)),
   ("molarity_mmol_per_l", .num (mass / mw / vol * 1000.0)),
   ("formula", .str "M = (mass / MW) / volume")]

/-- `compute_molarity`: M = (mass / MW) / volume. Note the source validates
only `molecular_weight` and `volume_liters`; the mass is used unchecked. -/
def compute_molarity (params : Params) : Except ToolError J :=
  match getNum params "mass_grams" with
  | none => .error (.invalidParameters "\x27mass_grams\x27 required for molarity")
  | some mass =>
    match getNum params "molecular_weight" with
    | none => .error (.invalidParameters "\x27molecular_weight\x27 required for molarity")
    | some mw =>
      match getNum params "volume_liters" with
      | none => .error (.invalidParameters "\x27volume_liters\x27 required for molarity")
      | some vol =>
        if mw ≤ 0 then .error (.invalidParameters "molecular_weight must be > 0")
        else if vol ≤ 0 then .error (.invalidParameters "volume_liters must be > 0")
        else .ok (.obj (molarityRecord mass mw vol))

/-- Round trip through the base unit, length spellings: `to_base_length`
followed by `from_base_unit` on the same spelling recovers the input. -/
theorem to_base_length_inv (v x : ℚ) (u b : String)
    (h : to_base_length v u = some (x, b)) : from_base_unit x b u = .ok v := by
  unfold to_base_length at h
  split at h
  all_goals first
  | exact Option.noConfusion h
  | (injection h with h
     injection h with h1 h2
     subst h2
     subst h1
     exact congrArg Except.ok (by ring))

/-- Round trip through the base unit, mass spellings: `to_base_mass`
followed by `from_base_unit` on the same spelling recovers the input. -/
theorem to_base_mass_inv (v x : ℚ) (u b : String)
    (h : to_base_mass v u = some (x, b)) : from_base_unit x b u = .ok v := by
  unfold to_base_mass at h
  split at h
  all_goals first
  | exact Option.noConfusion h
  | (injection h with h
     injection h with h1 h2
     subst h2
     subst h1
     exact congrArg Except.ok (by ring))

/-- Round trip through the base unit, volume spellings: `to_base_volume`
followed by `from_base_unit` on the same spelling recovers the input. -/
theorem to_base_volume_inv (v x : ℚ) (u b : String)
    (h : to_base_volume v u = some (x, b)) : from_base_unit x b u = .ok v := by
  unfold to_base_volume at h
  split at h
  all_goals first
  | exact Option.noConfusion h
  | (injection h with h
     injection h with h1 h2
     subst h2
     subst h1
     exact congrArg Except.ok (by ring))

/-- Round trip through the base unit, temperature spellings: `to_base_temperature`
followed by `from_base_unit` on the same spelling recovers the input. -/
theorem to_base_temperature_inv (v x : ℚ) (u b : String)
    (h : to_base_temperature v u = some (x, b)) : from_base_unit x b u = .ok v := by
  unfold to_base_temperature at h
  split at h
  all_goals first
  | exact Option.noConfusion h
  | (injection h with h
     injection h with h1 h2
     subst h2
     subst h1
     exact congrArg Except.ok (by ring))

/-- Round trip through the base unit, time spellings: `to_base_time`
followed by `from_base_unit` on the same spelling recovers the input. -/
theorem to_base_time_inv (v x : ℚ) (u b : String)
    (h : to_base_time v u = some (x, b)) : from_base_unit x b u = .ok v := by
  unfold to_base_time at h
  split at h
  all_goals first
  | exact Option.noConfusion h
  | (injection h with h
     injection h with h1 h2
     subst h2
     subst h1
     exact congrArg Except.ok (by ring))

/-- Round trip through the base unit, pressure spellings: `to_base_pressure`
followed by `from_base_unit` on the same spelling recovers the input. -/
theorem to_base_pressure_inv (v x : ℚ) (u b : String)
    (h : to_base_pressure v u = some (x, b)) : from_base_unit x b u = .ok v := by
  unfold to_base_pressure at h
  split at h
  all_goals first
  | exact Option.noConfusion h
  | (injection h with h
     injection h with h1 h2
     subst h2
     subst h1
     exact congrArg Except.ok (by ring))

/-- Round trip through the base unit, concentration spellings: `to_base_concentration`
followed by `from_base_unit` on the same spelling recovers the input. -/
theorem to_base_concentration_inv (v x : ℚ) (u b : String)
    (h : to_base_concentration v u = some (x, b)) : from_base_unit x b u = .ok v := by
  unfold to_base_concentration at h
  split at h
  all_goals first
  | exact Option.noConfusion h
  | (injection h with h
     injection h with h1 h2
     subst h2
     subst h1
     exact congrArg Except.ok (by ring))

/-- Round trip through the base unit, energy spellings: `to_base_energy`
followed by `from_base_unit` on the same spelling recovers the input. -/
theorem to_base_energy_inv (v x : ℚ) (u b : String)
    (h : to_base_energy v u = some (x, b)) : from_base_unit x b u = .ok v := by
  unfold to_base_energy at h
  split at h
  all_goals first
  | exact Option.noConfusion h
  | (injection h with h
     injection h with h1 h2
     subst h2
     subst h1
     exact congrArg Except.ok (by ring))

/-- Round trip from the base unit, length spellings: `from_base_length`
followed by `to_base_unit` on the same spelling recovers the base value and
reports the length base unit. -/
theorem from_base_length_inv (x w : ℚ) (u : String)
    (h : from_base_length x u = some w) : to_base_unit w u = .ok (x, "m") := by
  unfold from_base_length at h
  split at h
  all_goals first
  | exact Option.noConfusion h
  | (injection h with h
     subst h
     exact congrArg Except.ok (Prod.ext_iff.mpr ⟨by ring, rfl⟩))

/-- Round trip from the base unit, mass spellings: `from_base_mass`
followed by `to_base_unit` on the same spelling recovers the base value and
reports the mass base unit. -/
theorem from_base_mass_inv (x w : ℚ) (u : String)
    (h : from_base_mass x u = some w) : to_base_unit w u = .ok (x, "kg") := by
  unfold from_base_mass at h
  split at h
  all_goals first
  | exact Option.noConfusion h
  | (injection h with h
     subst h
     exact congrArg Except.ok (Prod.ext_iff.mpr ⟨by ring, rfl⟩))

/-- Round trip from the base unit, volume spellings: `from_base_volume`
followed by `to_base_unit` on the same spelling recovers the base value and
reports the volume base unit. -/
theorem from_base_volume_inv (x w : ℚ) (u : String)
    (h : from_base_volume x u = some w) : to_base_unit w u = .ok (x, "l") := by
  unfold from_base_volume at h
  split at h
  all_goals first
  | exact Option.noConfusion h
  | (injection h with h
     subst h
     exact congrArg Except.ok (Prod.ext_iff.mpr ⟨by ring, rfl⟩))

/-- Round trip from the base unit, temperature spellings: `from_base_temperature`
followed by `to_base_unit` on the same spelling recovers the base value and
reports the temperature base unit. -/
theorem from_base_temperature_inv (x w : ℚ) (u : String)
    (h : from_base_temperature x u = some w) : to_base_unit w u = .ok (x, "k") := by
  unfold from_base_temperature at h
  split at h
  all_goals first
  | exact Option.noConfusion h
  | (injection h with h
     subst h
     exact congrArg Except.ok (Prod.ext_iff.mpr ⟨by ring, rfl⟩))

/-- Round trip from the base unit, time spellings: `from_base_time`
followed by `to_base_unit` on the same spelling recovers the base value and
reports the time base unit. -/
theorem from_base_time_inv (x w : ℚ) (u : String)
    (h : from_base_time x u = some w) : to_base_unit w u = .ok (x, "s") := by
  unfold from_base_time at h
  split at h
  all_goals first
  | exact Option.noConfusion h
  | (injection h with h
     subst h
     exact congrArg Except.ok (Prod.ext_iff.mpr ⟨by ring, rfl⟩))

/-- Round trip from the base unit, pressure spellings: `from_base_pressure`
followed by `to_base_unit` on the same spelling recovers the base value and
reports the pressure base unit. -/
theorem from_base_pressure_inv (x w : ℚ) (u : String)
    (h : from_base_pressure x u = some w) : to_base_unit w u = .ok (x, "pa") := by
  unfold from_base_pressure at h
  split at h
  all_goals first
  | exact Option.noConfusion h
  | (injection h with h
     subst h
     exact congrArg Except.ok (Prod.ext_iff.mpr ⟨by ring, rfl⟩))

/-- Round trip from the base unit, concentration spellings: `from_base_concentration`
followed by `to_base_unit` on the same spelling recovers the base value and
reports the concentration base unit. -/
theorem from_base_concentration_inv (x w : ℚ) (u : String)
    (h : from_base_concentration x u = some w) : to_base_unit w u = .ok (x, "mol/l") := by
  unfold from_base_concentration at h
  split at h
  all_goals first
  | exact Option.noConfusion h
  | (injection h with h
     subst h
     exact congrArg Except.ok (Prod.ext_iff.mpr ⟨by ring, rfl⟩))

/-- Round trip from the base unit, energy spellings: `from_base_energy`
followed by `to_base_unit` on the same spelling recovers the base value and
reports the energy base unit. -/
theorem from_base_energy_inv (x w : ℚ) (u : String)
    (h : from_base_energy x u = some w) : to_base_unit w u = .ok (x, "j") := by
  unfold from_base_energy at h
  split at h
  all_goals first
  | exact Option.noConfusion h
  | (injection h with h
     subst h
     exact congrArg Except.ok (Prod.ext_iff.mpr ⟨by ring, rfl⟩))

/-- Converting to the category base and back to the same spelling recovers the
input exactly: the factors used by `to_base_unit` and `from_base_unit` are
reciprocal, and the temperature offset cancels. -/
theorem to_base_from_base_inv (v x : ℚ) (u b : String)
    (h : to_base_unit v u = .ok (x, b)) : from_base_unit x b u = .ok v := by
  unfold to_base_unit at h
  cases h0 : to_base_length v u with
  | some r =>
    rw [h0] at h
    injection h with h
    exact to_base_length_inv v x u b (h ▸ h0)
  | none =>
    rw [h0] at h
    cases h1 : to_base_mass v u with
    | some r =>
      rw [h1] at h
      injection h with h
      exact to_base_mass_inv v x u b (h ▸ h1)
    | none =>
      rw [h1] at h
      cases h2 : to_base_volume v u with
      | some r =>
        rw [h2] at h
        injection h with h
        exact to_base_volume_inv v x u b (h ▸ h2)
      | none =>
        rw [h2] at h
        cases h3 : to_base_temperature v u with
        | some r =>
          rw [h3] at h
          injection h with h
          exact to_base_temperature_inv v x u b (h ▸ h3)
        | none =>
          rw [h3] at h
          cases h4 : to_base_time v u with
          | some r =>
            rw [h4] at h
            injection h with h
            exact to_base_time_inv v x u b (h ▸ h4)
          | none =>
            rw [h4] at h
            cases h5 : to_base_pressure v u with
            | some r =>
              rw [h5] at h
              injection h with h
              exact to_base_pressure_inv v x u b (h ▸ h5)
            | none =>
              rw [h5] at h
              cases h6 : to_base_concentration v u with
              | some r =>
                rw [h6] at h
                injection h with h
                exact to_base_concentration_inv v x u b (h ▸ h6)
              | none =>
                rw [h6] at h
                cases h7 : to_base_energy v u with
                | some r =>
                  rw [h7] at h
                  injection h with h
                  exact to_base_energy_inv v x u b (h ▸ h7)
                | none =>
                  rw [h7] at h
                  exact Except.noConfusion h

/-- Converting from the category base to a spelling and back recovers the base
value exactly, together with the base unit the spelling belongs to. -/
theorem from_base_to_base_inv (x w : ℚ) (b u : String)
    (h : from_base_unit x b u = .ok w) : to_base_unit w u = .ok (x, b) := by
  unfold from_base_unit at h
  split at h
  all_goals first
  | exact Except.noConfusion h
  | (cases hf : from_base_length x u with
     | some r =>
       rw [hf] at h
       injection h with h
       exact from_base_length_inv x w u (h ▸ hf)
     | none =>
       rw [hf] at h
       exact Except.noConfusion h)
  | (cases hf : from_base_mass x u with
     | some r =>
       rw [hf] at h
       injection h with h
       exact from_base_mass_inv x w u (h ▸ hf)
     | none =>
       rw [hf] at h
       exact Except.noConfusion h)
  | (cases hf : from_base_volume x u with
     | some r =>
       rw [hf] at h
       injection h with h
       exact from_base_volume_inv x w u (h ▸ hf)
     | none =>
       rw [hf] at h
       exact Except.noConfusion h)
  | (cases hf : from_base_temperature x u with
     | some r =>
       rw [hf] at h
       injection h with h
       exact from_base_temperature_inv x w u (h ▸ hf)
     | none =>
       rw [hf] at h
       exact Except.noConfusion h)
  | (cases hf : from_base_time x u with
     | some r =>
       rw [hf] at h
       injection h with h
       exact from_base_time_inv x w u (h ▸ hf)
     | none =>
       rw [hf] at h
       exact Except.noConfusion h)
  | (cases hf : from_base_pressure x u with
     | some r =>
       rw [hf] at h
       injection h with h
       exact from_base_pressure_inv x w u (h ▸ hf)
     | none =>
       rw [hf] at h
       exact Except.noConfusion h)
  | (cases hf : from_base_concentration x u with
     | some r =>
       rw [hf] at h
       injection h with h
       exact from_base_concentration_inv x w u (h ▸ hf)
     | none =>
       rw [hf] at h
       exact Except.noConfusion h)
  | (cases hf : from_base_energy x u with
     | some r =>
       rw [hf] at h
       injection h with h
       exact from_base_energy_inv x w u (h ▸ hf)
     | none =>
       rw [hf] at h
       exact Except.noConfusion h)

/-- `from_base_unit` has a single error shape: every failure carries the
message interpolating the source category base unit and the raw target
spelling. -/
theorem from_base_error_msg (x : ℚ) (b t : String) (e : ToolError)
    (h : from_base_unit x b t = .error e) :
    e = .invalidParameters (crossMsg b t) := by
  unfold from_base_unit at h
  split at h
  all_goals first
  | exact (Except.error.inj h).symm
  | (cases hf : from_base_length x t with
     | some r =>
       rw [hf] at h
       exact Except.noConfusion h
     | none =>
       rw [hf] at h
       exact (Except.error.inj h).symm)
  | (cases hf : from_base_mass x t with
     | some r =>
       rw [hf] at h
       exact Except.noConfusion h
     | none =>
       rw [hf] at h
       exact (Except.error.inj h).symm)
  | (cases hf : from_base_volume x t with
     | some r =>
       rw [hf] at h
       exact Except.noConfusion h
     | none =>
       rw [hf] at h
       exact (Except.error.inj h).symm)
  | (cases hf : from_base_temperature x t with
     | some r =>
       rw [hf] at h
       exact Except.noConfusion h
     | none =>
       rw [hf] at h
       exact (Except.error.inj h).symm)
  | (cases hf : from_base_time x t with
     | some r =>
       rw [hf] at h
       exact Except.noConfusion h
     | none =>
       rw [hf] at h
       exact (Except.error.inj h).symm)
  | (cases hf : from_base_pressure x t with
     | some r =>
       rw [hf] at h
       exact Except.noConfusion h
     | none =>
       rw [hf] at h
       exact (Except.error.inj h).symm)
  | (cases hf : from_base_concentration x t with
     | some r =>
       rw [hf] at h
       exact Except.noConfusion h
     | none =>
       rw [hf] at h
       exact (Except.error.inj h).symm)
  | (cases hf : from_base_energy x t with
     | some r =>
       rw [hf] at h
       exact Except.noConfusion h
     | none =>
       rw [hf] at h
       exact (Except.error.inj h).symm)

/-- C9: for every finite value and every pair of recognized unit spellings in
the same category, the round trip `convert(convert(v, A, B), B, A)` recovers
`v` — exactly, in the exact-rational model, because the forward and backward
scale factors are reciprocal and the temperature affine map inverts via the
same offset and scale constants. -/
theorem c9_convert_round_trip (v w : ℚ) (fromUnit toUnit : String)
    (h : convert_units v fromUnit toUnit = .ok w) :
    convert_units w toUnit fromUnit = .ok v := by
  unfold convert_units at h ⊢
  cases htb : to_base_unit v (lowerString fromUnit) with
  | error e => rw [htb] at h; exact Except.noConfusion h
  | ok p =>
    obtain ⟨x, b⟩ := p
    rw [htb] at h
    rw [from_base_to_base_inv x w b (lowerString toUnit) h]
    exact to_base_from_base_inv v x (lowerString fromUnit) b htb

/-- C9 witness: 100 °C converts to exactly 212 °F and the round trip applied
by `c9_convert_round_trip` recovers exactly 100. -/
theorem c9_convert_round_trip_witness :
    convert_units 100 "c" "f" = .ok 212 ∧ convert_units 212 "f" "c" = .ok 100 := by
  have e1 : convert_units 100 "c" "f" = .ok 212 := by
    have harith : ((100 : ℚ) + 273.15 - 273.15) * 9.0 / 5.0 + 32.0 = 212 := by norm_num
    calc convert_units 100 "c" "f"
        = .ok (((100 : ℚ) + 273.15 - 273.15) * 9.0 / 5.0 + 32.0) := rfl
      _ = .ok 212 := by rw [harith]
  exact ⟨e1, c9_convert_round_trip 100 212 "c" "f" e1⟩

/-- C8 (amended): when the source spelling resolves to category base `b` and
the target spelling never resolves to `b`, `convert_units` fails, and the
error carries the source category base unit and the raw target spelling
(not the target category). -/
theorem c8_cross_category_error (v x : ℚ) (fromUnit toUnit b : String)
    (htb : to_base_unit v (lowerString fromUnit) = .ok (x, b))
    (hcross : ∀ y z : ℚ, to_base_unit y (lowerString toUnit) ≠ .ok (z, b)) :
    convert_units v fromUnit toUnit =
      .error (.invalidParameters (crossMsg b (lowerString toUnit))) := by
  unfold convert_units
  rw [htb]
  show from_base_unit x b (lowerString toUnit) = _
  cases hf : from_base_unit x b (lowerString toUnit) with
  | ok w => exact absurd (from_base_to_base_inv x w b (lowerString toUnit) hf) (hcross w x)
  | error e => rw [from_base_error_msg x b (lowerString toUnit) e hf]

/-- C8 witness: converting kilometers to Celsius fails with the catch-all
cross-category error, via `c8_cross_category_error`. -/
theorem c8_cross_category_error_witness :
    convert_units 1 "km" "c" = .error (.invalidParameters (crossMsg "m" "c")) := by
  have hcross : ∀ y z : ℚ, to_base_unit y (lowerString "c") ≠ .ok (z, "m") := by
    intro y z h
    injection h with h
    injection h with h1 h2
    exact absurd h2 (by decide)
  exact c8_cross_category_error 1 (1 * 1000.0) "km" "c" "m" rfl hcross

/-- C8 counterexample to the claim as stated: the cross-category error for a
length-to-temperature conversion interpolates the length base unit `m` and
the raw target spelling `c`; the temperature category (base unit `k`) is not
named — the message contains no character `k` at all. -/
theorem c8_counterexample :
    convert_units 1 "km" "c" = .error (.invalidParameters (crossMsg "m" "c")) ∧
    baseOf "c" = some "k" ∧ ¬ ('k' ∈ (crossMsg "m" "c").data) := by
  refine ⟨rfl, rfl, by decide⟩

/-- C2 (amended): two spellings that resolve to the same registry entry give
records that agree on every field except `symbol`, which echoes the spelling
exactly as the caller supplied it. -/
theorem c2_alias_lookup (p1 p2 : Params) (n1 n2 : String) (v : ℚ) (u d : String)
    (h1 : getField p1 "constant" = some (.str n1))
    (h2 : getField p2 "constant" = some (.str n2))
    (hc1 : constantData (lowerString n1) = some (v, u, d))
    (hc2 : constantData (lowerString n2) = some (v, u, d)) :
    lookup_constant p1 = .ok (.obj (constRecord n1 v u d)) ∧
    lookup_constant p2 = .ok (.obj (constRecord n2 v u d)) ∧
    removeField "symbol" (constRecord n1 v u d) =
      removeField "symbol" (constRecord n2 v u d) := by
  have hr1 : require_str p1 "constant" = .ok n1 := by
    simp only [require_str, h1]
  have hr2 : require_str p2 "constant" = .ok n2 := by
    simp only [require_str, h2]
  refine ⟨?_, ?_, rfl⟩
  · simp only [lookup_constant, hr1, hc1]
  · simp only [lookup_constant, hr2, hc2]

/-- C2 witness: `avogadro` and `NA` hit the same registry entry, so the two
records agree except in `symbol`, by `c2_alias_lookup`. -/
theorem c2_alias_lookup_witness :
    lookup_constant [("constant", .str "avogadro")] =
      .ok (.obj (constRecord "avogadro" 6.02214076e23 "mol⁻¹" "Avogadro\x27s number")) ∧
    lookup_constant [("constant", .str "NA")] =
      .ok (.obj (constRecord "NA" 6.02214076e23 "mol⁻¹" "Avogadro\x27s number")) ∧
    removeField "symbol" (constRecord "avogadro" 6.02214076e23 "mol⁻¹" "Avogadro\x27s number") =
      removeField "symbol" (constRecord "NA" 6.02214076e23 "mol⁻¹" "Avogadro\x27s number") :=
  c2_alias_lookup [("constant", .str "avogadro")] [("constant", .str "NA")]
    "avogadro" "NA" 6.02214076e23 "mol⁻¹" "Avogadro\x27s number" rfl rfl rfl rfl

/-- C2 counterexample to the claim as stated: the records returned for
`avogadro` and for `NA` are not identical field for field — the `symbol`
field echoes the caller spelling, so the two records differ there. -/
theorem c2_counterexample :
    lookup_constant [("constant", .str "avogadro")] =
      .ok (.obj (constRecord "avogadro" 6.02214076e23 "mol⁻¹" "Avogadro\x27s number")) ∧
    lookup_constant [("constant", .str "NA")] =
      .ok (.obj (constRecord "NA" 6.02214076e23 "mol⁻¹" "Avogadro\x27s number")) ∧
    getField (constRecord "avogadro" 6.02214076e23 "mol⁻¹" "Avogadro\x27s number") "symbol" =
      some (.str "avogadro") ∧
    getField (constRecord "NA" 6.02214076e23 "mol⁻¹" "Avogadro\x27s number") "symbol" =
      some (.str "NA") ∧
    "avogadro" ≠ "NA" :=
  ⟨rfl, rfl, rfl, rfl, by decide⟩

/-- With positive molecular weight and volume, `compute_molarity` succeeds on
any mass and returns the molarity record. -/
theorem compute_molarity_ok (params : Params) (mass mw vol : ℚ)
    (hm : getNum params "mass_grams" = some mass)
    (hw : getNum params "molecular_weight" = some mw)
    (hv : getNum params "volume_liters" = some vol)
    (hmw : 0 < mw) (hvol : 0 < vol) :
    compute_molarity params = .ok (.obj (molarityRecord mass mw vol)) := by
  simp only [compute_molarity, hm, hw, hv]
  rw [if_neg (not_le.mpr hmw), if_neg (not_le.mpr hvol)]

/-- C1 (amended): with positive molecular weight and volume, `compute_molarity`
accepts any mass — zero and negative included — and returns the record with
`moles = mass / MW` and the two molarity fields; no check rejects a negative
mass. -/
theorem c1_molarity_mass_unchecked (params : Params) (mass mw vol : ℚ)
    (hm : getNum params "mass_grams" = some mass)
    (hw : getNum params "molecular_weight" = some mw)
    (hv : getNum params "volume_liters" = some vol)
    (hmw : 0 < mw) (hvol : 0 < vol) :
    compute_molarity params = .ok (.obj (molarityRecord mass mw vol)) :=
  compute_molarity_ok params mass mw vol hm hw hv hmw hvol

/-- C1 witness: mass −1 g, molecular weight 1, volume 1 L is accepted by
`c1_molarity_mass_unchecked`, producing −1 moles. -/
theorem c1_molarity_mass_unchecked_witness :
    compute_molarity
      [("mass_grams", .num (-1)), ("molecular_weight", .num 1), ("volume_liters", .num 1)] =
      .ok (.obj (molarityRecord (-1) 1 1)) :=
  c1_molarity_mass_unchecked
    [("mass_grams", .num (-1)), ("molecular_weight", .num 1), ("volume_liters", .num 1)]
    (-1) 1 1 rfl rfl rfl (by decide) (by decide)

/-- C1 counterexample to the claim as stated: a strictly negative mass with
positive molecular weight and volume is not rejected — the operation succeeds
(the record holds −1 moles), so no `NonPositive` error is raised for the mass
field. -/
theorem c1_counterexample :
    compute_molarity
      [("mass_grams", .num (-1)), ("molecular_weight", .num 1), ("volume_liters", .num 1)] =
      .ok (.obj (molarityRecord (-1) 1 1)) ∧
    ∀ e : ToolError,
      compute_molarity
        [("mass_grams", .num (-1)), ("molecular_weight", .num 1), ("volume_liters", .num 1)] ≠
        .error e := by
  have hev := compute_molarity_ok
    [("mass_grams", .num (-1)), ("molecular_weight", .num 1), ("volume_liters", .num 1)]
    (-1) 1 1 rfl rfl rfl (by decide) (by decide)
  exact ⟨hev, fun e h => Except.noConfusion (hev.symm.trans h)⟩

/-- C4: `compute_dilution` fails with the invalid-combination error whenever
the number of supplied quantities (C1, V1, C2, and V2-as-`value`) is not
exactly three; with C1, V1, C2 present, `value` absent and C2 positive it
solves V2 = (C1·V1)/C2 and reports `solved_for = "V2"`. -/
theorem c4_dilution_combination (params : Params) :
    (presentCount (getNum params "c1") (getNum params "v1")
        (getNum params "c2") (getNum params "value") ≠ 3 →
      compute_dilution params = .error (.invalidParameters dilutionComboMsg)) ∧
    (∀ c1 v1 c2 : ℚ, getNum params "c1" = some c1 → getNum params "v1" = some v1 →
      getNum params "c2" = some c2 → getNum params "value" = none → 0 < c2 →
      compute_dilution params =
        .ok (.obj (dilutionRecord c1 v1 c2 ((c1 * v1) / c2) "V2"))) := by
  constructor
  · intro h
    rcases hc1 : getNum params "c1" with _ | c1 <;>
      rcases hv1 : getNum params "v1" with _ | v1 <;>
        rcases hc2 : getNum params "c2" with _ | c2 <;>
          rcases hv2 : getNum params "value" with _ | v2 <;>
            first
            | (exfalso
               apply h
               simp [presentCount, hc1, hv1, hc2, hv2]
               done)
            | simp only [compute_dilution, hc1, hv1, hc2, hv2]
  · intro c1 v1 c2 h1 h2 h3 h4 hpos
    simp only [compute_dilution, h1, h2, h3, h4]
    rw [if_neg (not_le.mpr hpos)]

/-- C4 witness: supplying all four quantities fails with the
invalid-combination error, and supplying exactly C1 = 10, V1 = 5, C2 = 2
solves V2 = 25, both via `c4_dilution_combination`. -/
theorem c4_dilution_combination_witness :
    compute_dilution
      [("c1", .num 10), ("v1", .num 5), ("c2", .num 2), ("value", .num 25)] =
      .error (.invalidParameters dilutionComboMsg) ∧
    compute_dilution [("c1", .num 10), ("v1", .num 5), ("c2", .num 2)] =
      .ok (.obj (dilutionRecord 10 5 2 25 "V2")) := by
  constructor
  · exact (c4_dilution_combination
      [("c1", .num 10), ("v1", .num 5), ("c2", .num 2), ("value", .num 25)]).1 (by decide)
  · have h := (c4_dilution_combination
      [("c1", .num 10), ("v1", .num 5), ("c2", .num 2)]).2 10 5 2 rfl rfl rfl rfl (by decide)
    rw [show ((10 : ℚ) * 5) / 2 = 25 from by norm_num] at h
    exact h

/-- C5: before dividing, `compute_dilution` requires the divisor to be strictly
positive: C2 to solve V2, V2 to solve C2, C1 to solve V1, V1 to solve C1; a
non-positive divisor yields the error naming that field, and no result. -/
theorem c5_dilution_divisor (params : Params) :
    (∀ c1 v1 c2 : ℚ, getNum params "c1" = some c1 → getNum params "v1" = some v1 →
      getNum params "c2" = some c2 → getNum params "value" = none → c2 ≤ 0 →
      compute_dilution params =
        .error (.invalidParameters "C2 must be > 0 to solve for V2")) ∧
    (∀ c1 v1 v2 : ℚ, getNum params "c1" = some c1 → getNum params "v1" = some v1 →
      getNum params "c2" = none → getNum params "value" = some v2 → v2 ≤ 0 →
      compute_dilution params =
        .error (.invalidParameters "V2 must be > 0 to solve for C2")) ∧
    (∀ c1 c2 v2 : ℚ, getNum params "c1" = some c1 → getNum params "v1" = none →
      getNum params "c2" = some c2 → getNum params "value" = some v2 → c1 ≤ 0 →
      compute_dilution params =
        .error (.invalidParameters "C1 must be > 0 to solve for V1")) ∧
    (∀ v1 c2 v2 : ℚ, getNum params "c1" = none → getNum params "v1" = some v1 →
      getNum params "c2" = some c2 → getNum params "value" = some v2 → v1 ≤ 0 →
      compute_dilution params =
        .error (.invalidParameters "V1 must be > 0 to solve for C1")) := by
  refine ⟨?_, ?_, ?_, ?_⟩ <;>
    (intro a b c h1 h2 h3 h4 hle
     simp only [compute_dilution, h1, h2, h3, h4]
     rw [if_pos hle])

/-- C5 witness: each of the four solve modes rejects a zero divisor with the
error naming that divisor, via `c5_dilution_divisor`. -/
theorem c5_dilution_divisor_witness :
    compute_dilution [("c1", .num 10), ("v1", .num 5), ("c2", .num 0)] =
      .error (.invalidParameters "C2 must be > 0 to solve for V2") ∧
    compute_dilution [("c1", .num 10), ("v1", .num 5), ("value", .num 0)] =
      .error (.invalidParameters "V2 must be > 0 to solve for C2") ∧
    compute_dilution [("c1", .num 0), ("c2", .num 2), ("value", .num 25)] =
      .error (.invalidParameters "C1 must be > 0 to solve for V1") ∧
    compute_dilution [("v1", .num 0), ("c2", .num 2), ("value", .num 25)] =
      .error (.invalidParameters "V1 must be > 0 to solve for C1") :=
  ⟨(c5_dilution_divisor _).1 10 5 0 rfl rfl rfl rfl (by decide),
   (c5_dilution_divisor _).2.1 10 5 0 rfl rfl rfl rfl (by decide),
   (c5_dilution_divisor _).2.2.1 0 2 25 rfl rfl rfl rfl (by decide),
   (c5_dilution_divisor _).2.2.2 0 2 25 rfl rfl rfl rfl (by decide)⟩

/-- C10: the fourth dilution quantity V2 is read from the request field
`value`, never from a field `v2`: the result depends only on the fields
`c1`, `v1`, `c2` and `value`; a request with a `v2` key (and no `value`)
counts three quantities and solves V2, while the same request with `value`
is the four-field case and fails. -/
theorem c10_dilution_value_key :
    (∀ p1 p2 : Params,
      getField p1 "c1" = getField p2 "c1" →
      getField p1 "v1" = getField p2 "v1" →
      getField p1 "c2" = getField p2 "c2" →
      getField p1 "value" = getField p2 "value" →
      compute_dilution p1 = compute_dilution p2) ∧
    compute_dilution
      [("c1", .num 10), ("v1", .num 5), ("c2", .num 2), ("v2", .num 99)] =
      .ok (.obj (dilutionRecord 10 5 2 25 "V2")) ∧
    compute_dilution
      [("c1", .num 10), ("v1", .num 5), ("c2", .num 2), ("value", .num 25)] =
      .error (.invalidParameters dilutionComboMsg) := by
  refine ⟨?_, ?_, rfl⟩
  · intro p1 p2 hc1 hv1 hc2 hval
    simp only [compute_dilution, getNum, hc1, hv1, hc2, hval]
  · have h : compute_dilution
        [("c1", .num 10), ("v1", .num 5), ("c2", .num 2), ("v2", .num 99)] =
        .ok (.obj (dilutionRecord 10 5 2 ((10 * 5 : ℚ) / 2) "V2")) := rfl
    rw [show ((10 : ℚ) * 5) / 2 = 25 from by norm_num] at h
    exact h

/-- C10 witness: adding a `v2` entry to a three-field request does not change
the result, by the field-dependence part of `c10_dilution_value_key`. -/
theorem c10_dilution_value_key_witness :
    compute_dilution
      [("c1", .num 10), ("v1", .num 5), ("c2", .num 2), ("v2", .num 99)] =
      compute_dilution [("c1", .num 10), ("v1", .num 5), ("c2", .num 2)] :=
  c10_dilution_value_key.1
    [("c1", .num 10), ("v1", .num 5), ("c2", .num 2), ("v2", .num 99)]
    [("c1", .num 10), ("v1", .num 5), ("c2", .num 2)] rfl rfl rfl rfl

/-- When the extraction keeps at least one number, `compute_statistics`
succeeds with the record over the extracted values. -/
theorem compute_statistics_ok (sqrtFn : ℚ → ℚ) (params : Params) (data : List J)
    (hdata : getField params "data" = some (.arr data))
    (hne : data.filterMap J.asNum ≠ []) :
    compute_statistics sqrtFn params =
      .ok (.obj (statsRecord sqrtFn (data.filterMap J.asNum))) := by
  have hb : (getField params "data").bind J.asArr = some data := by rw [hdata]; rfl
  cases hval : data.filterMap J.asNum with
  | nil => exact absurd hval hne
  | cons y ys =>
    simp only [compute_statistics, hb, hval]
    try rfl

/-- When the extraction keeps no number, `compute_statistics` fails with the
empty-sample error. -/
theorem compute_statistics_empty (sqrtFn : ℚ → ℚ) (params : Params) (data : List J)
    (hdata : getField params "data" = some (.arr data))
    (hnil : data.filterMap J.asNum = []) :
    compute_statistics sqrtFn params =
      .error (.invalidParameters "\x27data\x27 must contain at least one number") := by
  have hb : (getField params "data").bind J.asArr = some data := by rw [hdata]; rfl
  simp only [compute_statistics, hb, hnil]
  try rfl

/-- C7: with a `data` array present, `compute_statistics` fails with the
empty-sample error exactly when dropping the non-numeric entries leaves no
value; otherwise the non-numeric entries are silently ignored and the record
is computed over the extracted values. -/
theorem c7_statistics_empty_sample (sqrtFn : ℚ → ℚ) (params : Params) (data : List J)
    (hdata : getField params "data" = some (.arr data)) :
    (compute_statistics sqrtFn params =
        .error (.invalidParameters "\x27data\x27 must contain at least one number")
      ↔ data.filterMap J.asNum = []) ∧
    (data.filterMap J.asNum ≠ [] →
      compute_statistics sqrtFn params =
        .ok (.obj (statsRecord sqrtFn (data.filterMap J.asNum)))) := by
  constructor
  · constructor
    · intro h
      by_contra hne
      have hok := compute_statistics_ok sqrtFn params data hdata hne
      exact Except.noConfusion (hok.symm.trans h)
    · exact compute_statistics_empty sqrtFn params data hdata
  · exact compute_statistics_ok sqrtFn params data hdata

/-- C7 witness: a sample with a non-numeric entry mixed in is not rejected —
the entry is dropped and the statistics are computed over the numbers, via
`c7_statistics_empty_sample`; an all-non-numeric sample fails with the
empty-sample error. -/
theorem c7_statistics_empty_sample_witness :
    compute_statistics Rat.sqrt [("data", .arr [.num 1, .str "x", .num 3])] =
      .ok (.obj (statsRecord Rat.sqrt [1, 3])) ∧
    compute_statistics Rat.sqrt [("data", .arr [.str "x", .bool true])] =
      .error (.invalidParameters "\x27data\x27 must contain at least one number") :=
  ⟨(c7_statistics_empty_sample Rat.sqrt [("data", .arr [.num 1, .str "x", .num 3])]
      [.num 1, .str "x", .num 3] rfl).2 (by decide),
   (c7_statistics_empty_sample Rat.sqrt [("data", .arr [.str "x", .bool true])]
      [.str "x", .bool true] rfl).1.mpr rfl⟩

/-- C3 (amended): the successful statistics record has exactly the top-level
fields `n, mean, median, std_dev, sample_std_dev, sem, variance,
sample_variance, min, max, range, sum, percentiles, iqr`; the six percentile
fields `p25 … p99` are not top-level — they sit inside the nested
`percentiles` record. -/
theorem c3_statistics_field_names (sqrtFn : ℚ → ℚ) (params : Params) (data : List J)
    (hdata : getField params "data" = some (.arr data))
    (hne : data.filterMap J.asNum ≠ []) :
    compute_statistics sqrtFn params =
      .ok (.obj (statsRecord sqrtFn (data.filterMap J.asNum))) ∧
    J.keys (.obj (statsRecord sqrtFn (data.filterMap J.asNum))) =
      ["n", "mean", "median", "std_dev", "sample_std_dev", "sem", "variance",
       "sample_variance", "min", "max", "range", "sum", "percentiles", "iqr"] ∧
    (getField (statsRecord sqrtFn (data.filterMap J.asNum)) "percentiles").map J.keys =
      some ["p25", "p50", "p75", "p90", "p95", "p99"] :=
  ⟨compute_statistics_ok sqrtFn params data hdata hne, rfl, rfl⟩

/-- C3 witness: on the sample `[1,2,3,4,5]` the record has the fourteen fields
above, by `c3_statistics_field_names`. -/
theorem c3_statistics_field_names_witness :
    compute_statistics Rat.sqrt
      [("data", .arr [.num 1, .num 2, .num 3, .num 4, .num 5])] =
      .ok (.obj (statsRecord Rat.sqrt [1, 2, 3, 4, 5])) ∧
    J.keys (.obj (statsRecord Rat.sqrt [1, 2, 3, 4, 5])) =
      ["n", "mean", "median", "std_dev", "sample_std_dev", "sem", "variance",
       "sample_variance", "min", "max", "range", "sum", "percentiles", "iqr"] :=
  ⟨(c3_statistics_field_names Rat.sqrt
      [("data", .arr [.num 1, .num 2, .num 3, .num 4, .num 5])]
      [.num 1, .num 2, .num 3, .num 4, .num 5] rfl (by decide)).1,
   (c3_statistics_field_names Rat.sqrt
      [("data", .arr [.num 1, .num 2, .num 3, .num 4, .num 5])]
      [.num 1, .num 2, .num 3, .num 4, .num 5] rfl (by decide)).2.1⟩

/-- C3 counterexample to the claim as stated: the top-level field list of a
successful statistics record is not the nineteen-name list of the contract —
`p25 … p99` are absent at top level, a `percentiles` field appears instead. -/
theorem c3_counterexample :
    (compute_statistics Rat.sqrt
        [("data", .arr [.num 1, .num 2, .num 3, .num 4, .num 5])]).map J.keys =
      .ok ["n", "mean", "median", "std_dev", "sample_std_dev", "sem", "variance",
           "sample_variance", "min", "max", "range", "sum", "percentiles", "iqr"] ∧
    ["n", "mean", "median", "std_dev", "sample_std_dev", "sem", "variance",
     "sample_variance", "min", "max", "range", "sum", "percentiles", "iqr"] ≠
    ["n", "mean", "median", "std_dev", "sample_std_dev", "sem", "variance",
     "sample_variance", "min", "max", "range", "sum", "p25", "p50", "p75",
     "p90", "p95", "p99", "iqr"] :=
  ⟨rfl, by decide⟩

/-- C6: the percentile computation of `compute_statistics` coincides with the
R type-7 convention as worded by the spec (`percentileSpec`) on every
non-empty sample and every non-negative `p`; the record's `iqr` field is
`p75 − p25` and the six percentile fields are the `percentile` values over
the sorted sample; on `[1,2,3,4,5]` the 25th, 50th and 75th percentiles are
2, 3 and 4. -/
theorem c6_percentile_type7 :
    (∀ (sorted : List ℚ) (p : ℚ), sorted ≠ [] → 0 ≤ p →
      percentile sorted p = percentileSpec sorted p) ∧
    (∀ (sqrtFn : ℚ → ℚ) (values : List ℚ),
      getField (statsRecord sqrtFn values) "iqr" =
        some (.num (percentile (sortAsc values) 75 - percentile (sortAsc values) 25)) ∧
      getField (statsRecord sqrtFn values) "percentiles" =
        some (.obj
          [("p25", .num (percentile (sortAsc values) 25)),
           ("p50", .num (percentile (sortAsc values) 50)),
           ("p75", .num (percentile (sortAsc values) 75)),
           ("p90", .num (percentile (sortAsc values) 90)),
           ("p95", .num (percentile (sortAsc values) 95)),
           ("p99", .num (percentile (sortAsc values) 99))])) ∧
    percentile (sortAsc [1, 2, 3, 4, 5]) 25 = 2 ∧
    percentile (sortAsc [1, 2, 3, 4, 5]) 50 = 3 ∧
    percentile (sortAsc [1, 2, 3, 4, 5]) 75 = 4 := by
  refine ⟨?_, fun sqrtFn values => ⟨rfl, rfl⟩, ?_, ?_, ?_⟩
  · intro sorted p hne hp
    have hlen : (1 : ℚ) ≤ (sorted.length : ℚ) := by
      have h0 : 0 < sorted.length := List.length_pos.mpr hne
      exact_mod_cast h0
    simp only [percentile, percentileSpec]
    set r := p / 100 * ((sorted.length : ℚ) - 1) with hr
    have hrank : 0 ≤ r := by
      rw [hr]
      exact mul_nonneg (div_nonneg hp (by norm_num)) (by linarith)
    have h0 : 0 ≤ ⌊r⌋ := Int.floor_nonneg.mpr hrank
    by_cases hint : r = (⌊r⌋ : ℚ)
    · have hceil : ⌈r⌉ = ⌊r⌋ := (congrArg Int.ceil hint).trans (Int.ceil_intCast _)
      rw [if_pos (by rw [hceil]), if_pos hint]
    · have hlt : (⌊r⌋ : ℚ) < r := lt_of_le_of_ne (Int.floor_le r) (fun he => hint he.symm)
      have hceil : ⌈r⌉ = ⌊r⌋ + 1 := by
        refine le_antisymm (Int.ceil_le.mpr ?_) ?_
        · push_cast
          exact (Int.lt_floor_add_one r).le
        · have h2 : ⌊r⌋ < ⌈r⌉ := by
            have h3 := Int.le_ceil r
            exact_mod_cast hlt.trans_le h3
          omega
      have hne2 : (⌊r⌋).toNat ≠ (⌈r⌉).toNat := by
        rw [hceil]
        omega
      rw [if_neg hne2, if_neg hint, hceil]
      have hl : (((⌊r⌋).toNat : ℕ) : ℚ) = (⌊r⌋ : ℚ) := by
        exact_mod_cast Int.toNat_of_nonneg h0
      have hu : ((((⌊r⌋ + 1).toNat : ℕ)) : ℚ) = (⌊r⌋ : ℚ) + 1 := by
        have hnn : (0 : ℤ) ≤ ⌊r⌋ + 1 := by omega
        exact_mod_cast Int.toNat_of_nonneg hnn
      rw [hl, hu]
      ring
  · rw [show sortAsc [1, 2, 3, 4, 5] = ([1, 2, 3, 4, 5] : List ℚ) from by decide]
    have h1 : (25 : ℚ) / 100 * ((([1, 2, 3, 4, 5] : List ℚ).length : ℚ) - 1) = 1 := by
      norm_num
    simp only [percentile, h1]
    decide
  · rw [show sortAsc [1, 2, 3, 4, 5] = ([1, 2, 3, 4, 5] : List ℚ) from by decide]
    have h1 : (50 : ℚ) / 100 * ((([1, 2, 3, 4, 5] : List ℚ).length : ℚ) - 1) = 2 := by
      norm_num
    simp only [percentile, h1]
    decide
  · rw [show sortAsc [1, 2, 3, 4, 5] = ([1, 2, 3, 4, 5] : List ℚ) from by decide]
    have h1 : (75 : ℚ) / 100 * ((([1, 2, 3, 4, 5] : List ℚ).length : ℚ) - 1) = 3 := by
      norm_num
    simp only [percentile, h1]
    decide

/-- C6 witness: the transcription and the spec wording agree on the median of
`[1,2,3,4,5]`, by `c6_percentile_type7`. -/
theorem c6_percentile_type7_witness :
    percentile [1, 2, 3, 4, 5] 50 = percentileSpec [1, 2, 3, 4, 5] 50 :=
  c6_percentile_type7.1 [1, 2, 3, 4, 5] 50 (by decide) (by decide)
